import Mathlib

/-!
# Verification of the SIVACOR dashboard job-lifecycle orchestration

Shallow embedding of the client-side orchestration code of the SIVACOR
dashboard (`src/lib/FileUploader.svelte`, `src/lib/JobRunner.svelte`,
`src/lib/JobMonitor.svelte`, `src/lib/api.ts`) together with proofs about
the chunked uploader, the submission builder, the status poller, the
live-log stream controller and the bounded log buffer.

JavaScript numbers are modelled with `Nat` (all quantities involved are
non-negative integers well below 2^53, where JS integer arithmetic is
exact); JS `null`/`undefined` becomes `Option`; a thrown-and-caught
exception becomes an explicit `Except`/branch.
-/

namespace Sivacor

/-! ## Chunked uploader (`FileUploader.svelte`) -/

/-- `UPLOAD_CHUNK_SIZE = 1024 * 1024 * 5` (5 MiB). -/
def UPLOAD_CHUNK_SIZE : Nat := 1024 * 1024 * 5

/-- The chunk loop of `startUpload`:
`while (offset < totalSize) { chunk = file.slice(offset, offset + UPLOAD_CHUNK_SIZE); ... offset += UPLOAD_CHUNK_SIZE }`.
Returns the byte ranges `[start, stop)` of the chunks issued, in the order
they are sent (the loop awaits each `uploadFileChunk` before the next
iteration, so this list order is the strict temporal order of requests). -/
def chunkLoop (totalSize : Nat) (offset : Nat) : List (Nat × Nat) :=
  if offset < totalSize then
    (offset, min (offset + UPLOAD_CHUNK_SIZE) totalSize) ::
      chunkLoop totalSize (offset + UPLOAD_CHUNK_SIZE)
  else
    []
termination_by totalSize - offset
decreasing_by
  have : 0 < UPLOAD_CHUNK_SIZE := by decide
  omega

/-- Byte ranges of all chunk requests issued for a file of `totalSize` bytes. -/
def chunkRanges (totalSize : Nat) : List (Nat × Nat) :=
  chunkLoop totalSize 0

/-- `uploadedBytes = offset + chunk.size` after the chunk at `offset`:
the end of that chunk's range. -/
def uploadedBytesAfter (totalSize i : Nat) : Nat :=
  min ((i + 1) * UPLOAD_CHUNK_SIZE) totalSize

/-!
JS numbers are IEEE-754 binary64; the progress line
`Math.floor((uploadedBytes / totalSize) * 100)` performs two
correctly-rounded double operations before the floor, and the result can
differ from the exact rational floor (e.g. `0.29 * 100` evaluates to
`28.999999999999996`).  The embedding below represents the positive finite
doubles arising here as `m·2^e` with `2^52 ≤ m < 2^53` (or zero) and
implements round-to-nearest, ties-to-even.  The inputs involved (integers
up to 2^53, quotients in `(0, 1]`, products in `(0, 100]`) are far from
overflow and subnormal ranges, so this normalized form is exhaustive. -/

/-- A positive finite binary64 value `m·2^e` with `2^52 ≤ m < 2^53`,
or zero (`m = 0`). -/
structure FP where
  m : Nat
  e : Int
  deriving Repr, DecidableEq

/-- `⌊log₂ n⌋` by repeated halving, fuel-bounded so that it evaluates by
kernel reduction (256 halvings cover every quantity in this embedding). -/
def log2Step : Nat → Nat → Nat
  | 0, _ => 0
  | fuel + 1, n => if 2 ≤ n then log2Step fuel (n / 2) + 1 else 0

/-- `⌊log₂ n⌋` for the magnitudes arising here (all far below `2^256`). -/
def natLog2 (n : Nat) : Nat := log2Step 256 n

/-- Round the exact value `n·2^e` (`n` an arbitrary natural) to the
nearest binary64, ties to even. -/
def normalizeFP (n : Nat) (e : Int) : FP :=
  if n = 0 then ⟨0, 0⟩
  else
    let b := natLog2 n
    if b ≤ 52 then ⟨n * 2 ^ (52 - b), e - (52 - b)⟩
    else
      let s := b - 52
      let q := n / 2 ^ s
      let r := n % 2 ^ s
      let half := 2 ^ (s - 1)
      let m :=
        if r < half then q
        else if half < r then q + 1
        else if q % 2 = 0 then q else q + 1
      if m = 2 ^ 53 then ⟨2 ^ 52, e + s + 1⟩ else ⟨m, e + s⟩

/-- `a·2^k ≤ b` with a signed exponent. -/
def pow2MulLe (a : Nat) (k : Int) (b : Nat) : Bool :=
  if 0 ≤ k then a * 2 ^ k.toNat ≤ b else a ≤ b * 2 ^ (-k).toNat

/-- The largest `k` with `2^k ≤ p/q` (for `p, q > 0`): the true value lies
within one of the difference of the integer logarithms, so testing the
three candidates suffices. -/
def floorLog2Rat (p q : Nat) : Int :=
  let d : Int := (natLog2 p : Int) - (natLog2 q : Int)
  if pow2MulLe q (d + 1) p then d + 1
  else if pow2MulLe q d p then d
  else d - 1

/-- Correctly rounded binary64 division `p / q` of two naturals
(round to nearest, ties to even). -/
def divFP (p q : Nat) : FP :=
  if p = 0 ∨ q = 0 then ⟨0, 0⟩
  else
    let k := floorLog2Rat p q
    let e : Int := k - 52
    let num : Nat := if 0 ≤ e then p else p * 2 ^ (-e).toNat
    let den : Nat := if 0 ≤ e then q * 2 ^ e.toNat else q
    let m0 := num / den
    let r := num % den
    let m :=
      if 2 * r < den then m0
      else if den < 2 * r then m0 + 1
      else if m0 % 2 = 0 then m0 else m0 + 1
    if m = 2 ^ 53 then ⟨2 ^ 52, e + 1⟩ else ⟨m, e⟩

/-- Correctly rounded binary64 multiplication of a double by a small
natural (the exact product `m·c·2^e` is rounded back to 53 bits). -/
def mulFPNat (x : FP) (c : Nat) : FP :=
  normalizeFP (x.m * c) x.e

/-- `Math.floor` of a non-negative double. -/
def floorFP (x : FP) : Nat :=
  if 0 ≤ x.e then x.m * 2 ^ x.e.toNat else x.m / 2 ^ (-x.e).toNat

/-- The progress line of `startUpload`:
`Math.floor((uploadedBytes / totalSize) * 100)` in binary64. -/
def jsProgress (bytes total : Nat) : Nat :=
  floorFP (mulFPNat (divFP bytes total) 100)

/-- `uploadProgress` after the chunk at index `i`. -/
def progressAfter (totalSize i : Nat) : Nat :=
  jsProgress (uploadedBytesAfter totalSize i) totalSize

/-- Outcome of one run of `startUpload` (`FileUploader.svelte`): which chunk
requests were issued, whether the `uploadcomplete` event fired (and with
which file id), and the final error/status/progress state. -/
structure UploadOutcome where
  chunksIssued : List (Nat × Nat)
  dispatchedFileId : Option String
  errorMessage : Option String
  uploadStatus : String
  uploadProgress : Nat
  deriving Repr, DecidableEq

/-- `startUpload` for a selected file of `totalSize` bytes, assuming
`initiateFileUpload` and every `uploadFileChunk` request succeed, the final
chunk response carrying `finalFileId` as its `_id`.  Mirrors the source:
`lastChunk` starts as `null` and is replaced by each chunk response; after
the loop the code reads `lastChunk._id` — on a zero-byte file the loop body
never runs, `lastChunk` is still `null`, and that member access throws a
`TypeError` which the surrounding `catch` turns into the upload-failed
state (`errorMessage` set, status `"Failed"`, progress reset to 0) without
dispatching `uploadcomplete`. -/
def startUpload (totalSize : Nat) (finalFileId : String) : UploadOutcome :=
  let ranges := chunkRanges totalSize
  let lastChunk : Option String := if ranges.isEmpty then none else some finalFileId
  match lastChunk with
  | some fid =>
      { chunksIssued := ranges
        dispatchedFileId := some fid
        errorMessage := none
        uploadStatus := "Upload complete!"
        uploadProgress := 100 }
  | none =>
      { chunksIssued := ranges
        dispatchedFileId := none
        errorMessage := some "Upload failed. Check console for details."
        uploadStatus := "Failed"
        uploadProgress := 0 }

/-! ## Bounded streaming-log buffer (`JobMonitor.svelte`) -/

/-- `MAX_LOG_ENTRIES = 1000`. -/
def MAX_LOG_ENTRIES : Nat := 1000

/-- A normalized streaming log entry. -/
structure LogEntry where
  timestamp : String
  message : String
  level : String
  deriving Repr, DecidableEq

/-- `addLogEntry`: push the entry, then if the buffer length exceeds
`MAX_LOG_ENTRIES` shift off the oldest entry. -/
def addLogEntry (logs : List LogEntry) (e : LogEntry) : List LogEntry :=
  let pushed := logs ++ [e]
  if MAX_LOG_ENTRIES < pushed.length then pushed.tail else pushed

/-! ## Job submission builder (`JobRunner.svelte` / `api.ts`) -/

/-- One configuration row of the submission form
(`{id, selectedImage, selectedTag, executionFileName}`; the opaque client
id plays no role in submission and is omitted). -/
structure ConfigEntry where
  selectedImage : Option String
  selectedTag : Option String
  executionFileName : String
  deriving Repr, DecidableEq

/-- Wire shape of one stage (`ApiJobStageConfig` in `api.ts`). -/
structure ApiJobStageConfig where
  image_name : String
  image_tag : String
  main_file : String
  deriving Repr, DecidableEq

/-- JS whitespace trimmed by `String.prototype.trim` (ASCII part). -/
def jsWhitespace : List Char := [' ', '\t', '\n', '\r', '\x0b', '\x0c']

/-- `s.trim()` on the characters of a JS string. -/
def jsTrim (cs : List Char) : List Char :=
  (cs.dropWhile (jsWhitespace.contains ·)).reverse.dropWhile (jsWhitespace.contains ·) |>.reverse

/-- The filter predicate of `runJob`'s `validConfig`:
`entry.selectedImage && entry.selectedTag && entry.executionFileName`
(JS truthiness: `null` and the empty string are the falsy cases). -/
def entryIsValid (e : ConfigEntry) : Bool :=
  e.selectedImage.getD "" ≠ "" && e.selectedTag.getD "" ≠ "" && e.executionFileName ≠ ""

/-- `submitJob`'s translation of accepted entries into the wire shape
(`api.ts`: `config.map (stage => ({image_name: stage.selectedImage, ...}))`).
The filtered entries are fully populated, so the `Option` fields are
read with a default that is never used. -/
def transformConfig (config : List ConfigEntry) : List ApiJobStageConfig :=
  config.map fun stage =>
    { image_name := stage.selectedImage.getD ""
      image_tag := stage.selectedTag.getD ""
      main_file := stage.executionFileName }

/-- Result of a `runJob` attempt: either rejected locally with an error
message before any network call, or `submitJob` invoked with the given
wire-format stage list. -/
inductive RunJobResult where
  | rejected (msg : String)
  | submitted (stages : List ApiJobStageConfig)
  deriving Repr, DecidableEq

/-- `runJob` (`JobRunner.svelte`): local validation and submission.
Checks, in source order: uploaded file id present; a first config entry
exists; the first entry's execution file name is non-blank after `trim()`;
the first entry has both image and tag.  Then it *filters* the entry list
down to the entries satisfying `entryIsValid` and throws (caught locally)
only when no entry at all survives; otherwise `submitJob` is called with
the transformed surviving entries. -/
def runJob (uploadedFileId : Option String) (configEntries : List ConfigEntry) :
    RunJobResult :=
  if uploadedFileId.getD "" = "" then .rejected "Please upload a file first."
  else
    match configEntries.head? with
    | none => .rejected "No configuration available."
    | some firstEntry =>
      if jsTrim firstEntry.executionFileName.toList = [] then
        .rejected "Please specify an execution file name."
      else if firstEntry.selectedImage.getD "" = "" || firstEntry.selectedTag.getD "" = "" then
        .rejected "Please select both an image and a tag."
      else
        if (configEntries.filter entryIsValid).isEmpty then
          .rejected "Failed to submit job. Check console for details."
        else
          .submitted (transformConfig (configEntries.filter entryIsValid))

/-! ## Streaming-message normalization (`ws.onmessage` in `JobMonitor.svelte`)

The handler first attempts `JSON.parse(messageData)`; on success it reads
`logData.message`/`logData.level`, on a parse error it treats the payload
as plain text.  `JSON.parse` is a platform builtin; it is embedded below
as an executable recursive-descent parser of the JSON grammar (RFC 8259,
which is what `JSON.parse` implements).  Numbers keep their source literal
(only their truthiness and display text matter to the handler); `\uXXXX`
escapes outside the scalar range are out of scope (none of the observed
payloads contain them). -/

/-- Parsed JSON values.  Objects keep their members in source order;
duplicate keys are resolved at lookup (last occurrence wins, as in JS). -/
inductive Json where
  | null : Json
  | bool (b : Bool) : Json
  | num (lit : String) : Json
  | str (s : String) : Json
  | arr (elems : List Json) : Json
  | obj (members : List (String × Json)) : Json

/-- JSON insignificant whitespace (space, tab, line feed, carriage return). -/
def skipJsonWs (cs : List Char) : List Char :=
  cs.dropWhile fun c => c = ' ' || c = '\t' || c = '\n' || c = '\r'

/-- Whether a character is a hexadecimal digit (`[0-9a-fA-F]`). -/
def isHexDigitChar (c : Char) : Bool :=
  c.isDigit || ('a' ≤ c && c ≤ 'f') || ('A' ≤ c && c ≤ 'F')

/-- Numeric value of one hexadecimal digit. -/
def hexVal (c : Char) : Nat :=
  if c.isDigit then c.toNat - 48
  else c.toLower.toNat - 87

/-- Decode one escape sequence (the characters following a backslash):
returns the decoded character and the remaining input. -/
def decodeJsonEscape (cs : List Char) : Option (Char × List Char) :=
  match cs with
  | [] => none
  | e :: rest =>
    if e = '"' then some ('"', rest)
    else if e = '\\' then some ('\\', rest)
    else if e = '/' then some ('/', rest)
    else if e = 'b' then some ('\x08', rest)
    else if e = 'f' then some ('\x0c', rest)
    else if e = 'n' then some ('\n', rest)
    else if e = 'r' then some ('\r', rest)
    else if e = 't' then some ('\t', rest)
    else if e = 'u' then
      match rest with
      | h1 :: h2 :: h3 :: h4 :: rest2 =>
        if isHexDigitChar h1 && isHexDigitChar h2 && isHexDigitChar h3 && isHexDigitChar h4 then
          some (Char.ofNat
            (hexVal h1 * 4096 + hexVal h2 * 256 + hexVal h3 * 16 + hexVal h4), rest2)
        else none
      | _ => none
    else none

/-- Body of a JSON string after the opening quote (fuel-bounded; the fuel
supplied by `jsonParse` always suffices, every step consumes input):
returns the decoded characters and the input after the closing quote.
Raw control characters are a syntax error; recognised escapes are
`\" \\ \/ \b \f \n \r \t \uXXXX`. -/
def parseJsonStringBody : Nat → List Char → Option (List Char × List Char)
  | 0, _ => none
  | _, [] => none
  | fuel + 1, c :: rest =>
    if c = '"' then some ([], rest)
    else if c = '\\' then
      match decodeJsonEscape rest with
      | none => none
      | some (d, rest') =>
        match parseJsonStringBody fuel rest' with
        | none => none
        | some (s, r) => some (d :: s, r)
    else if c.toNat < 32 then none
    else
      match parseJsonStringBody fuel rest with
      | none => none
      | some (s, r) => some (c :: s, r)

/-- The JSON number grammar `-? (0 | [1-9][0-9]*) ('.' [0-9]+)? ([eE][+-]?[0-9]+)?`,
returning the consumed literal and the remaining input. -/
def parseJsonNumber (cs : List Char) : Option (List Char × List Char) :=
  let (sign, cs1) :=
    match cs with
    | '-' :: r => (['-'], r)
    | _ => (([] : List Char), cs)
  match cs1 with
  | [] => none
  | c :: r =>
    if ¬ c.isDigit then none
    else
      let (intDigits, rest1) :=
        if c = '0' then ([c], r)
        else (c :: r.takeWhile Char.isDigit, r.dropWhile Char.isDigit)
      let fracPart : Option (List Char × List Char) :=
        match rest1 with
        | '.' :: fr =>
          let ds := fr.takeWhile Char.isDigit
          if ds = [] then none
          else some ('.' :: ds, fr.dropWhile Char.isDigit)
        | _ => some ([], rest1)
      match fracPart with
      | none => none
      | some (frac, rest2) =>
        let expPart : Option (List Char × List Char) :=
          match rest2 with
          | e :: er =>
            if e = 'e' ∨ e = 'E' then
              let (sgn, er2) :=
                match er with
                | s :: sr => if s = '+' ∨ s = '-' then ([s], sr) else (([] : List Char), er)
                | [] => (([] : List Char), er)
              let ds := er2.takeWhile Char.isDigit
              if ds = [] then none
              else some (e :: (sgn ++ ds), er2.dropWhile Char.isDigit)
            else some ([], rest2)
          | [] => some ([], rest2)
        match expPart with
        | none => none
        | some (ex, rest3) =>
          some (sign ++ intDigits ++ frac ++ ex, rest3)

mutual

/-- One JSON value (fuel-bounded recursive descent).  All recursive calls
pass the predecessor fuel; `jsonParse` supplies enough fuel for any input
because every recursive call is preceded by the consumption of at least
one input character. -/
def parseJsonValue : Nat → List Char → Option (Json × List Char)
  | 0, _ => none
  | fuel + 1, cs =>
    match cs with
    | [] => none
    | c :: rest =>
      if c = '"' then
        match parseJsonStringBody fuel rest with
        | none => none
        | some (s, r) => some (.str s.asString, r)
      else if c = '{' then
        let afterWs := skipJsonWs rest
        match afterWs with
        | '}' :: r => some (.obj [], r)
        | _ => parseJsonMembers fuel afterWs []
      else if c = '[' then
        let afterWs := skipJsonWs rest
        match afterWs with
        | ']' :: r => some (.arr [], r)
        | _ => parseJsonElements fuel afterWs []
      else if c = 't' then
        match cs with
        | 't' :: 'r' :: 'u' :: 'e' :: r => some (.bool true, r)
        | _ => none
      else if c = 'f' then
        match cs with
        | 'f' :: 'a' :: 'l' :: 's' :: 'e' :: r => some (.bool false, r)
        | _ => none
      else if c = 'n' then
        match cs with
        | 'n' :: 'u' :: 'l' :: 'l' :: r => some (.null, r)
        | _ => none
      else
        match parseJsonNumber cs with
        | none => none
        | some (lit, r) => some (.num lit.asString, r)

/-- Members of a JSON object after `{` and leading whitespace (at least one
member present; `acc` holds the members parsed so far in order). -/
def parseJsonMembers : Nat → List Char → List (String × Json) → Option (Json × List Char)
  | 0, _, _ => none
  | fuel + 1, cs, acc =>
    match cs with
    | '"' :: rest =>
      match parseJsonStringBody fuel rest with
      | none => none
      | some (key, afterKey) =>
        match skipJsonWs afterKey with
        | ':' :: afterColon =>
          match parseJsonValue fuel (skipJsonWs afterColon) with
          | none => none
          | some (v, afterVal) =>
            let acc' := acc ++ [(key.asString, v)]
            match skipJsonWs afterVal with
            | ',' :: afterComma => parseJsonMembers fuel (skipJsonWs afterComma) acc'
            | '}' :: r => some (.obj acc', r)
            | _ => none
        | _ => none
    | _ => none

/-- Elements of a JSON array after `[` and leading whitespace (at least one
element present). -/
def parseJsonElements : Nat → List Char → List Json → Option (Json × List Char)
  | 0, _, _ => none
  | fuel + 1, cs, acc =>
    match parseJsonValue fuel cs with
    | none => none
    | some (v, afterVal) =>
      let acc' := acc ++ [v]
      match skipJsonWs afterVal with
      | ',' :: afterComma => parseJsonElements fuel (skipJsonWs afterComma) acc'
      | ']' :: r => some (.arr acc', r)
      | _ => none

end

/-- `JSON.parse`: whitespace, one value, whitespace, end of input;
`none` models the thrown `SyntaxError`. -/
def jsonParse (s : String) : Option Json :=
  let cs := skipJsonWs s.toList
  match parseJsonValue (s.length + 2) cs with
  | none => none
  | some (v, rest) => if skipJsonWs rest = [] then some v else none

/-- Whether the mantissa of a JSON number literal is all zeros
(then and only then its numeric value is `0`, i.e. falsy in JS). -/
def jsonNumIsZero (lit : String) : Bool :=
  (lit.toList.takeWhile fun c => c ≠ 'e' ∧ c ≠ 'E').all fun c => ¬ c.isDigit ∨ c = '0'

/-- JS truthiness of a parsed JSON value. -/
def jsonTruthy : Json → Bool
  | .null => false
  | .bool b => b
  | .num lit => ¬ jsonNumIsZero lit
  | .str s => s ≠ ""
  | .arr _ => true
  | .obj _ => true

/-- JS member access `v.k` on a parsed JSON value: `none` models
`undefined` (non-objects have no such member; for duplicate keys
`JSON.parse` keeps the last occurrence). -/
def jsonField (v : Json) (k : String) : Option Json :=
  match v with
  | .obj members => (members.reverse.find? fun m => m.1 = k).map (·.2)
  | _ => none

/-- Display text of a JSON value used as a log level
(the handler stores `logData.level` unconverted; the view later coerces it
to text — string levels are kept verbatim, which is the only case the
backend contract produces). -/
def jsonLevelText : Json → String
  | .str s => s
  | .bool b => if b then "true" else "false"
  | .num lit => lit
  | _ => "[object]"

/-- Consume exactly `n` decimal digits (`\d{n}`). -/
def matchDigits : Nat → List Char → Option (List Char × List Char)
  | 0, cs => some ([], cs)
  | _ + 1, [] => none
  | n + 1, c :: cs =>
    if c.isDigit then
      match matchDigits n cs with
      | none => none
      | some (ds, rest) => some (c :: ds, rest)
    else none

/-- Consume one literal character. -/
def matchLit (c : Char) (cs : List Char) : Option (List Char) :=
  match cs with
  | c' :: rest => if c' = c then some rest else none
  | [] => none

/-- Group 1 of `parseLogMessage`'s regex,
`\d{4}-\d{2}-\d{2}T\d{2}:\d{2}:\d{2}(?:\.\d+)?Z?`, anchored at the start:
returns the matched prefix and the remaining input. -/
def isoTimestampMatch (cs : List Char) : Option (List Char × List Char) :=
  match matchDigits 4 cs with
  | none => none
  | some (y, r1) =>
    match matchLit '-' r1 with
    | none => none
    | some r2 =>
      match matchDigits 2 r2 with
      | none => none
      | some (mo, r3) =>
        match matchLit '-' r3 with
        | none => none
        | some r4 =>
          match matchDigits 2 r4 with
          | none => none
          | some (d, r5) =>
            match matchLit 'T' r5 with
            | none => none
            | some r6 =>
              match matchDigits 2 r6 with
              | none => none
              | some (h, r7) =>
                match matchLit ':' r7 with
                | none => none
                | some r8 =>
                  match matchDigits 2 r8 with
                  | none => none
                  | some (mi, r9) =>
                    match matchLit ':' r9 with
                    | none => none
                    | some r10 =>
                      match matchDigits 2 r10 with
                      | none => none
                      | some (sec, r11) =>
                        -- `(?:\.\d+)?`: taken only when a dot with at
                        -- least one digit follows (greedy on the digits)
                        let (frac, r12) :=
                          match r11 with
                          | '.' :: fr =>
                            if (fr.takeWhile Char.isDigit) = [] then (([] : List Char), r11)
                            else ('.' :: fr.takeWhile Char.isDigit, fr.dropWhile Char.isDigit)
                          | _ => (([] : List Char), r11)
                        -- `Z?`
                        let (z, r13) :=
                          match r12 with
                          | 'Z' :: zr => (['Z'], zr)
                          | _ => (([] : List Char), r12)
                        some (y ++ ['-'] ++ mo ++ ['-'] ++ d ++ ['T'] ++ h ++ [':'] ++
                              mi ++ [':'] ++ sec ++ frac ++ z, r13)

/-- `parseLogMessage` (`JobMonitor.svelte`): if the line starts with the
ISO-timestamp pattern, split it into the timestamp (group 1) and the rest
of the line after the whitespace run (group 2, `.*` stopping at a line
terminator), falling back to the whole line when the trimmed rest is
empty; otherwise use the receipt time `now` (`new Date().toISOString()`)
and the whole line. -/
def parseLogMessage (now : String) (logString : String) : String × String :=
  match isoTimestampMatch logString.toList with
  | some (ts, rest) =>
    let afterWs := rest.dropWhile (jsWhitespace.contains ·)
    let group2 := afterWs.takeWhile fun c => c ≠ '\n' ∧ c ≠ '\r'
    let trimmed := jsTrim group2
    (ts.asString, if trimmed ≠ [] then trimmed.asString else logString)
  | none => (now, logString)

/-- `ws.onmessage` normalization (`JobMonitor.svelte`): try the payload as
JSON; on success run `parseLogMessage` on its truthy `message` field
(falling back to the raw payload when the field is falsy) with the `level`
field defaulted to `"info"`; on a JSON syntax error treat the payload as
plain text with level `"info"`.  `none` models the one case in which no
entry is appended: a truthy non-string `message` field, on which the
handler's `logString.match(...)` call throws and is swallowed by the
surrounding catch-all. -/
def handleWsMessage (now : String) (messageData : String) : Option LogEntry :=
  match jsonParse messageData with
  | some logData =>
    let levelStr :=
      match jsonField logData "level" with
      | some lv => if jsonTruthy lv then jsonLevelText lv else "info"
      | none => "info"
    match jsonField logData "message" with
    | some msgVal =>
      if jsonTruthy msgVal then
        match msgVal with
        | .str m =>
          let parsed := parseLogMessage now m
          some { timestamp := parsed.1, message := parsed.2, level := levelStr }
        | _ => none
      else
        let parsed := parseLogMessage now messageData
        some { timestamp := parsed.1, message := parsed.2, level := levelStr }
    | none =>
      let parsed := parseLogMessage now messageData
      some { timestamp := parsed.1, message := parsed.2, level := levelStr }
  | none =>
    let parsed := parseLogMessage now messageData
    some { timestamp := parsed.1, message := parsed.2, level := "info" }

/-! ## Job status poller and log-stream controller (`JobMonitor.svelte`)

The component's mutable `let` bindings become the fields of
`MonitorState`; each event handler becomes a state transformer.  Handlers
are applied atomically (the component is single-threaded and no other
writer touches these variables while a handler's awaited network calls are
in flight, except where noted in the individual definitions). -/

/-- The cached `JobRecord` mirror (`fetchJobDetails` response). -/
structure JobDetails where
  _id : String
  status : Nat
  error : Option String
  deriving Repr, DecidableEq

/-- The cached `SubmissionRecord` mirror: its id plus the two metadata
fields the monitor reads (`meta.job_id`, `meta.stages`). -/
structure Submission where
  _id : String
  job_id : Option String
  stages : Option (List ApiJobStageConfig)
  deriving Repr, DecidableEq

/-- Modelled from the spec: the per-stage performance-metrics payload
returned by the metrics endpoint (`StartedAt`, `FinishedAt`,
`MaxCPUPercent`, ...).  Its contents are opaque to every claim, so it is
kept as a single payload field. -/
structure MetricsData where
  payload : String
  deriving Repr, DecidableEq

/-- One entry of `performanceMetrics`. -/
structure StageMetrics where
  stageNumber : Nat
  stageName : String
  data : MetricsData
  deriving Repr, DecidableEq

/-- Modelled from the spec: `fetchPerformanceMetrics` is imported by
`JobMonitor.svelte` but its definition is not part of the sources under
`src/`; per the spec a per-stage metrics fetch failure is silently dropped
(never retried, never surfaced), so the fetch is modelled as an oracle
returning `none` on failure, matching the caller's `if (metrics)` check. -/
def MetricsOracle : Type := String → Nat → Option MetricsData

/-- `STATUS[status] || "UNKNOWN"`. -/
def statusText (status : Nat) : String :=
  match status with
  | 0 => "INACTIVE"
  | 1 => "QUEUED"
  | 2 => "RUNNING"
  | 3 => "SUCCESS"
  | 4 => "ERROR"
  | 5 => "CANCELED"
  | _ => "UNKNOWN"

/-- The component state: one field per mutable `let` binding touched by
the claims.  `pollActive` stands for `pollIntervalId !== null`,
`websocketExists` for `websocket !== null`; `cancelOutstanding` is a ghost
flag tracking a `cancelJob` request that has been issued but whose promise
has not yet settled, and `pendingFetches` a ghost counter of
`fetchJobDetails` requests issued by timer ticks that have not yet
settled — the poll loop is wall-clock driven, not fetch-completion
chained, so several such fetches can be in flight at once and settle in
any order. -/
structure MonitorState where
  isMonitoring : Bool
  jobDetails : Option JobDetails
  jobStatusText : Option String
  errorMessage : Option String
  pollActive : Bool
  currentJobId : Option String
  latestSubmission : Option Submission
  websocketExists : Bool
  isConnectingToLogs : Bool
  streamingLogs : List LogEntry
  logsConnectionError : Option String
  isLogsVisible : Bool
  performanceMetrics : List StageMetrics
  cancelOutstanding : Bool
  pendingFetches : Nat
  deriving Repr, DecidableEq

/-- `$: isJobActive = jobDetails && jobDetails.status < 3`. -/
def isJobActive (s : MonitorState) : Bool :=
  match s.jobDetails with
  | some d => d.status < 3
  | none => false

/-- `disconnectFromLogs`: cancel a pending connection attempt, drop the
socket, clear the buffer and the error flag. -/
def disconnectFromLogs (s : MonitorState) : MonitorState :=
  { s with isConnectingToLogs := false
           websocketExists := false
           streamingLogs := []
           logsConnectionError := none }

/-- Result of `connectToLogs`, with ghost observations of what happened to
the channel: whether a previously open socket was closed and whether a new
one was opened. -/
structure ConnectResult where
  state : MonitorState
  closedExisting : Bool
  openedNew : Bool
  deriving Repr, DecidableEq

/-- `connectToLogs`: set the connecting flag and clear the error, throw
(caught locally) when no token/URL is available (`tokenOk = false`), else
close any existing socket and construct a fresh `WebSocket`.  Note the
function itself performs no already-connected/already-connecting check. -/
def connectToLogs (tokenOk : Bool) (s : MonitorState) : ConnectResult :=
  let s1 := { s with isConnectingToLogs := true, logsConnectionError := none }
  if tokenOk then
    { state := { s1 with websocketExists := true }
      closedExisting := s.websocketExists
      openedNew := true }
  else
    { state := { s1 with isConnectingToLogs := false
                         logsConnectionError := some "Authentication required" }
      closedExisting := false
      openedNew := false }

/-- `stopPolling`: clear the interval, leave monitoring mode, and
disconnect from the log stream. -/
def stopPolling (s : MonitorState) : MonitorState :=
  disconnectFromLogs { s with pollActive := false, isMonitoring := false }

/-- The display name `${image_name}:${image_tag} - ${main_file}` of a stage. -/
def stageDisplayName (stage : ApiJobStageConfig) : String :=
  stage.image_name ++ ":" ++ stage.image_tag ++ " - " ++ stage.main_file

/-- `loadPerformanceMetrics`: bail out unless a submission with an id and
declared `meta.stages` is cached; otherwise fetch the metrics of every
stage (issued in parallel, joined with `Promise.all`) and keep only the
non-null results, in stage order.  No field other than
`performanceMetrics` is modified. -/
def loadPerformanceMetrics (oracle : MetricsOracle) (s : MonitorState) : MonitorState :=
  match s.latestSubmission with
  | none => s
  | some sub =>
    if sub._id = "" then s
    else
      match sub.stages with
      | none => s
      | some stages =>
        let results := stages.enum.map fun p =>
          (oracle sub._id (p.1 + 1)).map fun d =>
            ({ stageNumber := p.1 + 1
               stageName := stageDisplayName p.2
               data := d } : StageMetrics)
        { s with performanceMetrics := results.filterMap id }

/-- The inner try of `checkJobStatus`: refresh the cached submission when
`getLatestSubmission` resolves with one whose `meta.job_id` matches the
watched job; its rejection (`Except.error`) is swallowed. -/
def refreshSubmission (s : MonitorState) (jobId : String)
    (subResult : Except Unit (Option Submission)) : MonitorState :=
  match subResult with
  | .error _ => s
  | .ok (some sub) =>
    if sub.job_id = some jobId then { s with latestSubmission := some sub } else s
  | .ok none => s

/-- `checkJobStatus`: one completed poll for `jobId`.  `fetchResult` is the
settled `fetchJobDetails` promise (`none` = rejected).  On success: refresh
the cached submission, stop polling and load metrics when the fetched
status is terminal (`≥ 3`), capture the error message on status 4, then
replace the cached details and status text.  On a failed fetch: surface
`"Could not fetch job status."` and stop polling. -/
def checkJobStatus (oracle : MetricsOracle) (s : MonitorState) (jobId : String)
    (fetchResult : Option JobDetails) (subResult : Except Unit (Option Submission)) :
    MonitorState :=
  match fetchResult with
  | none => stopPolling { s with errorMessage := some "Could not fetch job status." }
  | some details =>
    let s2 :=
      if 3 ≤ details.status then
        loadPerformanceMetrics oracle (stopPolling (refreshSubmission s jobId subResult))
      else refreshSubmission s jobId subResult
    let s3 :=
      if details.status = 4 then
        let msg := details.error.getD "The job encountered an unspecified error."
        { s2 with errorMessage := some msg }
      else s2
    { s3 with jobDetails := some details
              jobStatusText := some (statusText details.status) }

/-- The poller's environment: the metrics oracle, whether a bearer token
is available for the log channel, and the receipt-time clock value. -/
structure Env where
  oracle : MetricsOracle
  tokenOk : Bool
  now : String

/-- `startPolling`: enter monitoring mode, issue an immediate status fetch
and install the interval timer, then auto-connect to logs when the panel
is visible and no socket exists nor attempt is in progress (this guard
runs synchronously, before the immediate fetch resolves, so it reads the
pre-fetch socket state); finally the immediate fetch's result is applied. -/
def startPolling (env : Env) (s : MonitorState) (jobId : String)
    (fetchResult : Option JobDetails) (subResult : Except Unit (Option Submission)) :
    MonitorState :=
  let s1 := { s with isMonitoring := true, pollActive := true }
  let s2 :=
    if s1.isLogsVisible && !s1.websocketExists && !s1.isConnectingToLogs then
      (connectToLogs env.tokenOk s1).state
    else s1
  checkJobStatus env.oracle s2 jobId fetchResult subResult

/-- `handleCancel`: bail out without a job (or with a falsy id), otherwise
set the status text to `"Canceling..."` and issue the cancel request
(fire-and-forget; `cancelOutstanding` records the in-flight request).
The cached `jobDetails` is not modified. -/
def handleCancel (s : MonitorState) : MonitorState :=
  match s.jobDetails with
  | none => s
  | some d =>
    if d._id = "" then s
    else { s with jobStatusText := some "Canceling...", cancelOutstanding := true }

/-- Settlement of the `cancelJob` promise: on rejection the status text
becomes `"Cancellation failed."`; on success nothing is written (the next
poll must observe the backend-confirmed status). -/
def cancelSettled (ok : Bool) (s : MonitorState) : MonitorState :=
  let s1 := { s with cancelOutstanding := false }
  if ok then s1 else { s1 with jobStatusText := some "Cancellation failed." }

/-- `toggleLogsVisibility`: flip visibility, then connect when the panel
just became visible during an active job and no socket exists nor
connection attempt is in progress. -/
def toggleLogsVisibility (tokenOk : Bool) (s : MonitorState) : MonitorState :=
  let s1 := { s with isLogsVisible := !s.isLogsVisible }
  if s1.isLogsVisible && isJobActive s1 && !s1.websocketExists && !s1.isConnectingToLogs then
    (connectToLogs tokenOk s1).state
  else s1

/-- `$: shouldPoll = !!currentJobId && !isMonitoring && (!jobDetails || jobDetails.status < 3)`. -/
def shouldPoll (s : MonitorState) : Bool :=
  s.currentJobId.isSome && !s.isMonitoring &&
    (match s.jobDetails with
     | none => true
     | some d => d.status < 3)

/-- The cancel button's `disabled` binding:
`jobDetails.status === 5 || jobStatusText === "Canceling..."`
(the button exists only when details are cached; without details it cannot
be pressed, modelled as disabled). -/
def cancelButtonDisabled (s : MonitorState) : Bool :=
  match s.jobDetails with
  | none => true
  | some d => d.status = 5 || s.jobStatusText = some "Canceling..."

/-- Events that can occur while a given job is being watched (the user
actions `resetJob`/`handleDeleteAndReset`/new submission end that job's
watch and start a different lifecycle, so they are outside this event
alphabet): a wall-clock timer tick, which only *issues* a status fetch;
the settlement of one previously issued fetch with
`fetchResult`/`subResult` — ticks and settlements interleave freely, so a
fetch issued before a terminal observation can settle after it; the
Svelte reactive restart guard re-evaluating (lines 467-481 of the
component); a cancel click; the cancel promise settling; the logs toggle;
an inbound streaming message. -/
inductive Event where
  | tick
  | fetchSettles (fetchResult : Option JobDetails) (subResult : Except Unit (Option Submission))
  | reactiveCheck (fetchResult : Option JobDetails) (subResult : Except Unit (Option Submission))
  | cancelClick
  | cancelSettles (ok : Bool)
  | toggleLogs
  | wsMessage (data : String)

/-- One event step; the second component counts the status fetches
(`fetchJobDetails` calls) the step issues.  A tick issues a fetch (counted
here) only while the interval is installed; the fetch's handler body runs
at its later `fetchSettles` event (possible only while a fetch is in
flight), with no staleness guard relating the settling fetch to the
current cached state.  The reactive guard's `startPolling` issues an
immediate fetch exactly when it (re)starts polling (counted here; its
settlement is modelled with the call, which is harmless for the claims:
no restart occurs from quiescent terminal states).  Nothing else fetches
job status. -/
def step (env : Env) (s : MonitorState) (e : Event) : MonitorState × Nat :=
  match e with
  | .tick =>
    if s.pollActive then
      ({ s with pendingFetches := s.pendingFetches + 1 }, 1)
    else (s, 0)
  | .fetchSettles fr sr =>
    if 0 < s.pendingFetches then
      (checkJobStatus env.oracle { s with pendingFetches := s.pendingFetches - 1 }
        (s.currentJobId.getD "") fr sr, 0)
    else (s, 0)
  | .reactiveCheck fr sr =>
    if shouldPoll s && s.currentJobId.isSome then
      (startPolling env s (s.currentJobId.getD "") fr sr, 1)
    else (s, 0)
  | .cancelClick => (handleCancel s, 0)
  | .cancelSettles ok => (cancelSettled ok s, 0)
  | .toggleLogs => (toggleLogsVisibility env.tokenOk s, 0)
  | .wsMessage dataStr =>
    if s.websocketExists then
      match handleWsMessage env.now dataStr with
      | some entry => ({ s with streamingLogs := addLogEntry s.streamingLogs entry }, 0)
      | none => (s, 0)
    else (s, 0)

/-- Run a sequence of events, accumulating the issued status fetches. -/
def runTrace (env : Env) (s : MonitorState) : List Event → MonitorState × Nat
  | [] => (s, 0)
  | e :: es =>
    let p := step env s e
    let q := runTrace env p.1 es
    (q.1, p.2 + q.2)

/-- A terminal status (`≥ 3`) has been observed and recorded: the interval
timer is stopped and the component is out of monitoring mode. -/
def inTerminalState (s : MonitorState) : Bool :=
  (match s.jobDetails with
   | some d => 3 ≤ d.status
   | none => false) &&
  !s.pollActive && !s.isMonitoring

/-- Builder for one collected `performanceMetrics` entry from an enumerated
stage (`index, stage`) and its fetched data. -/
def mkStageMetrics (p : Nat × ApiJobStageConfig) (d : MetricsData) : StageMetrics :=
  { stageNumber := p.1 + 1, stageName := stageDisplayName p.2, data := d }

/-! ### Concrete fixtures used by counterexamples and witnesses -/

/-- A normalized entry, as produced for the spec's scenario line. -/
def sampleLogEntry : LogEntry :=
  { timestamp := "2024-01-01T00:00:00Z", message := "container started", level := "info" }

/-- A fully populated configuration row. -/
def completeStage : ConfigEntry :=
  { selectedImage := some "stata", selectedTag := some "18", executionFileName := "main.do" }

/-- A configuration row missing image, tag and entry file. -/
def incompleteStage : ConfigEntry :=
  { selectedImage := none, selectedTag := none, executionFileName := "" }

/-- Cached details of a RUNNING job. -/
def runningDetails : JobDetails := { _id := "job-1", status := 2, error := none }

/-- Cached details of a SUCCESS job. -/
def terminalDetails : JobDetails := { _id := "job-1", status := 3, error := none }

/-- The wire shape of the sample stage. -/
def sampleStage : ApiJobStageConfig :=
  { image_name := "stata", image_tag := "18", main_file := "main.do" }

/-- A second stage, to exercise multi-stage metrics. -/
def sampleStageR : ApiJobStageConfig :=
  { image_name := "rstudio", image_tag := "4.3", main_file := "main.R" }

/-- A submission correlated with `job-1` declaring two stages. -/
def sampleSubmission : Submission :=
  { _id := "sub-1", job_id := some "job-1", stages := some [sampleStage, sampleStageR] }

/-- An oracle on which every metrics fetch fails. -/
def noMetrics : MetricsOracle := fun _ _ => none

/-- An oracle on which exactly the first stage's metrics fetch fails. -/
def failFirstOracle : MetricsOracle :=
  fun _ n => if n = 1 then none else some { payload := "ok" }

/-- A fixed environment for concrete runs. -/
def env0 : Env := { oracle := noMetrics, tokenOk := true, now := "2024-01-01T00:00:00Z" }

/-- The monitor mid-poll on a RUNNING job. -/
def pollingState : MonitorState :=
  { isMonitoring := true
    jobDetails := some runningDetails
    jobStatusText := some "RUNNING"
    errorMessage := none
    pollActive := true
    currentJobId := some "job-1"
    latestSubmission := none
    websocketExists := false
    isConnectingToLogs := false
    streamingLogs := []
    logsConnectionError := none
    isLogsVisible := false
    performanceMetrics := []
    cancelOutstanding := false
    pendingFetches := 0 }

/-- The monitor after observing a terminal status. -/
def terminalState : MonitorState :=
  { pollingState with
    isMonitoring := false
    jobDetails := some terminalDetails
    jobStatusText := some "SUCCESS"
    pollActive := false }

/-- The monitor with an open log channel. -/
def connectedState : MonitorState :=
  { pollingState with websocketExists := true, isLogsVisible := true }

/-- The monitor mid-poll with the sample submission cached. -/
def submittedState : MonitorState :=
  { pollingState with latestSubmission := some sampleSubmission }

/-! ## Theorems -/

/-- Closed form of the chunk loop: starting at `off`, the loop issues
`⌈(S - off) / chunkSize⌉` chunks at consecutive `chunkSize` offsets, each
clipped to the file size. -/
theorem chunkLoop_closed_form (S off : Nat) :
    chunkLoop S off =
      (List.range ((S - off + UPLOAD_CHUNK_SIZE - 1) / UPLOAD_CHUNK_SIZE)).map
        (fun i => (off + i * UPLOAD_CHUNK_SIZE, min (off + (i + 1) * UPLOAD_CHUNK_SIZE) S)) := by
  induction off using chunkLoop.induct with
  | totalSize => exact S
  | case1 off h ih =>
    rw [chunkLoop]
    simp only [if_pos h]
    have hceil : (S - off + UPLOAD_CHUNK_SIZE - 1) / UPLOAD_CHUNK_SIZE =
        (S - (off + UPLOAD_CHUNK_SIZE) + UPLOAD_CHUNK_SIZE - 1) / UPLOAD_CHUNK_SIZE + 1 := by
      unfold UPLOAD_CHUNK_SIZE at *
      omega
    rw [hceil, List.range_succ_eq_map, List.map_cons, ih, List.map_map]
    congr 1
    apply List.map_congr_left
    intro a _
    simp only [Function.comp_apply, Nat.succ_eq_add_one, Prod.mk.injEq]
    refine ⟨by ring, ?_⟩
    have heq : off + UPLOAD_CHUNK_SIZE + (a + 1) * UPLOAD_CHUNK_SIZE =
        off + (a + 1 + 1) * UPLOAD_CHUNK_SIZE := by ring
    rw [heq]
  | case2 off h =>
    have h0 : S - off = 0 := by omega
    rw [chunkLoop]
    simp only [if_neg h, h0]
    have h1 : (0 + UPLOAD_CHUNK_SIZE - 1) / UPLOAD_CHUNK_SIZE = 0 := by decide
    rw [h1]
    simp

/-- The cumulative size of the first `i + 1` chunks telescopes to
`min ((i+1) * chunkSize) S`. -/
theorem chunk_size_sum (S i : Nat) (hi : i * UPLOAD_CHUNK_SIZE < S) :
    ((List.range (i + 1)).map
      (fun k => min ((k + 1) * UPLOAD_CHUNK_SIZE) S - k * UPLOAD_CHUNK_SIZE)).sum =
      min ((i + 1) * UPLOAD_CHUNK_SIZE) S := by
  induction i with
  | zero =>
    rw [show List.range 1 = [0] from rfl]
    simp
  | succ j ihj =>
    have hj : j * UPLOAD_CHUNK_SIZE < S := by
      unfold UPLOAD_CHUNK_SIZE at *
      omega
    rw [List.range_succ, List.map_append, List.sum_append, ihj hj]
    simp only [List.map_cons, List.map_nil, List.sum_cons, List.sum_nil]
    unfold UPLOAD_CHUNK_SIZE at *
    omega

/-- Counterexample to **C5** as stated: the progress display is computed
in IEEE binary64, which differs from the exact rational floor at
reachable inputs.  For a 500 MiB file (`S = 524288000`, within the UI's
5 GB limit), after the 29th chunk `bytesSent = 152043520` and
`bytesSent/S = 0.29` exactly, but the program evaluates
`Math.floor(0.29 * 100) = Math.floor(28.999999999999996) = 28` while the
exact `⌊bytesSent · 100 / S⌋` is `29`. -/
theorem progress_differs_from_exact_floor :
    uploadedBytesAfter 524288000 28 = 152043520 ∧
    progressAfter 524288000 28 = 28 ∧
    152043520 * 100 / 524288000 = 29 := by
  decide

/-- **C5 (amended)**: for a file of `S` bytes with the fixed 5 MiB chunk
size, exactly `⌈S / chunkSize⌉` chunk requests are issued (the loop awaits
each response before slicing the next chunk, so the list order is the
strict temporal order); the `i`-th request carries the byte range
`[i·chunkSize, min((i+1)·chunkSize, S))`, so consecutive ranges abut, the
first starts at 0 and the last ends at `S` — covering the file exactly
with no gap or overlap, the last chunk possibly shorter; and after each
chunk the reported progress is the IEEE binary64 evaluation of
`Math.floor((bytesSent / S) * 100)` where `bytesSent` is the total size of
the chunks sent so far — which may be one less than the exact
`⌊bytesSent · 100 / S⌋` (see `progress_differs_from_exact_floor`). -/
theorem chunked_upload_correct (S : Nat) :
    (chunkRanges S).length = (S + UPLOAD_CHUNK_SIZE - 1) / UPLOAD_CHUNK_SIZE ∧
    (∀ i, i < (chunkRanges S).length →
      (chunkRanges S)[i]? = some (i * UPLOAD_CHUNK_SIZE, min ((i + 1) * UPLOAD_CHUNK_SIZE) S)) ∧
    (∀ i, i + 1 < (chunkRanges S).length →
      (chunkRanges S)[i]?.map Prod.snd = (chunkRanges S)[i + 1]?.map Prod.fst) ∧
    (0 < (chunkRanges S).length →
      (chunkRanges S)[0]?.map Prod.fst = some 0 ∧
      (chunkRanges S)[(chunkRanges S).length - 1]?.map Prod.snd = some S) ∧
    (∀ i, i < (chunkRanges S).length →
      progressAfter S i =
        jsProgress ((((chunkRanges S).take (i + 1)).map (fun r => r.2 - r.1)).sum) S) := by
  have hcr : chunkRanges S =
      (List.range ((S + UPLOAD_CHUNK_SIZE - 1) / UPLOAD_CHUNK_SIZE)).map
        (fun i => (i * UPLOAD_CHUNK_SIZE, min ((i + 1) * UPLOAD_CHUNK_SIZE) S)) := by
    rw [chunkRanges, chunkLoop_closed_form]
    simp
  have hlen : (chunkRanges S).length = (S + UPLOAD_CHUNK_SIZE - 1) / UPLOAD_CHUNK_SIZE := by
    rw [hcr]
    simp
  have hget : ∀ i, i < (chunkRanges S).length →
      (chunkRanges S)[i]? = some (i * UPLOAD_CHUNK_SIZE, min ((i + 1) * UPLOAD_CHUNK_SIZE) S) := by
    intro i hi
    rw [hlen] at hi
    rw [hcr, List.getElem?_map, List.getElem?_range hi, Option.map_some']
  have hmul : ∀ i, i < (chunkRanges S).length → i * UPLOAD_CHUNK_SIZE < S := by
    intro i hi
    rw [hlen] at hi
    unfold UPLOAD_CHUNK_SIZE at *
    omega
  refine ⟨hlen, hget, ?_, ?_, ?_⟩
  · intro i hi
    have h1 := hget i (by omega)
    have h2 := hget (i + 1) hi
    rw [h1, h2]
    simp only [Option.map_some']
    have h3 : (i + 1) * UPLOAD_CHUNK_SIZE < S := hmul (i + 1) hi
    congr 1
    omega
  · intro hpos
    have h0 := hget 0 hpos
    have hl := hget ((chunkRanges S).length - 1) (by omega)
    have hS : S ≤ ((chunkRanges S).length - 1 + 1) * UPLOAD_CHUNK_SIZE := by
      rw [hlen] at hpos ⊢
      unfold UPLOAD_CHUNK_SIZE at *
      omega
    rw [h0, hl]
    simp only [Option.map_some']
    constructor
    · simp
    · exact congrArg some (by omega)
  · intro i hi
    have hi' : i + 1 ≤ (S + UPLOAD_CHUNK_SIZE - 1) / UPLOAD_CHUNK_SIZE := by
      rw [hlen] at hi
      omega
    have htake : (chunkRanges S).take (i + 1) =
        (List.range (i + 1)).map
          (fun k => (k * UPLOAD_CHUNK_SIZE, min ((k + 1) * UPLOAD_CHUNK_SIZE) S)) := by
      rw [hcr, ← List.map_take, List.take_range, min_eq_left hi']
    rw [htake, List.map_map]
    have hsum : ((List.range (i + 1)).map
        ((fun r : Nat × Nat => r.2 - r.1) ∘
          fun k => (k * UPLOAD_CHUNK_SIZE, min ((k + 1) * UPLOAD_CHUNK_SIZE) S))).sum =
        min ((i + 1) * UPLOAD_CHUNK_SIZE) S := by
      rw [← chunk_size_sum S i (hmul i hi)]
      rfl
    rw [hsum]
    rfl

/-- Witness for **C5** at the spec's 12 MiB scenario: 3 chunks, the last
covering `[10485760, 12582912)`, and the progress after the second chunk
is `⌊10485760·100/12582912⌋ = 83`. -/
theorem chunked_upload_correct_witness :
    (chunkRanges 12582912).length = 3 ∧
    (chunkRanges 12582912)[2]? = some (10485760, 12582912) ∧
    progressAfter 12582912 1 = 83 := by
  have h := chunked_upload_correct 12582912
  refine ⟨h.1.trans (by decide), ?_, by decide⟩
  have h2 := h.2.1 2 (by rw [h.1]; decide)
  rw [h2]
  decide

/-- **C10**: uploading a zero-byte file issues zero chunk requests, the
chunk loop body never runs, no `uploadcomplete` event is dispatched (the
`lastChunk._id` read throws on the still-`null` `lastChunk`, which the
`catch` swallows), and the flow ends in the upload-failed error state
(error message set, status `"Failed"`, progress reset to 0) rather than
an unhandled exception. -/
theorem zero_byte_upload_never_completes (finalFileId : String) :
    startUpload 0 finalFileId =
      { chunksIssued := []
        dispatchedFileId := none
        errorMessage := some "Upload failed. Check console for details."
        uploadStatus := "Failed"
        uploadProgress := 0 } := by
  have h0 : chunkRanges 0 = [] := by
    rw [chunkRanges, chunkLoop]
    simp
  simp [startUpload, h0]

/-- **C6**: the streaming-log buffer never exceeds 1000 entries; appending
to a full buffer evicts exactly the oldest entry, appending to a non-full
buffer evicts nothing — in both cases the relative order of the retained
entries is preserved (the result is the old buffer, minus possibly its
head, with the new entry at the back). -/
theorem log_buffer_bounded (logs : List LogEntry) (e : LogEntry)
    (h : logs.length ≤ MAX_LOG_ENTRIES) :
    (addLogEntry logs e).length ≤ MAX_LOG_ENTRIES ∧
    (logs.length = MAX_LOG_ENTRIES → addLogEntry logs e = logs.tail ++ [e]) ∧
    (logs.length < MAX_LOG_ENTRIES → addLogEntry logs e = logs ++ [e]) := by
  unfold addLogEntry MAX_LOG_ENTRIES at *
  by_cases hlt : 1000 < (logs ++ [e]).length
  · simp only [if_pos hlt]
    simp only [List.length_append, List.length_cons, List.length_nil] at hlt
    have hlen : logs.length = 1000 := by omega
    cases logs with
    | nil => simp at hlen
    | cons a as =>
      refine ⟨?_, fun _ => ?_, fun hc => ?_⟩
      · simp_all
      · simp
      · omega
  · simp only [if_neg hlt]
    simp only [List.length_append, List.length_cons, List.length_nil] at hlt
    refine ⟨?_, ?_, ?_⟩
    · simp only [List.length_append, List.length_cons, List.length_nil]
      omega
    · intro hc
      exact (by omega : False).elim
    · intro hc
      trivial

/-- Witness for **C6** at a full buffer of 1000 entries. -/
theorem log_buffer_bounded_witness :
    (List.replicate MAX_LOG_ENTRIES sampleLogEntry).length ≤ MAX_LOG_ENTRIES ∧
    ((addLogEntry (List.replicate MAX_LOG_ENTRIES sampleLogEntry) sampleLogEntry).length ≤
        MAX_LOG_ENTRIES ∧
      ((List.replicate MAX_LOG_ENTRIES sampleLogEntry).length = MAX_LOG_ENTRIES →
        addLogEntry (List.replicate MAX_LOG_ENTRIES sampleLogEntry) sampleLogEntry =
          (List.replicate MAX_LOG_ENTRIES sampleLogEntry).tail ++ [sampleLogEntry]) ∧
      ((List.replicate MAX_LOG_ENTRIES sampleLogEntry).length < MAX_LOG_ENTRIES →
        addLogEntry (List.replicate MAX_LOG_ENTRIES sampleLogEntry) sampleLogEntry =
          List.replicate MAX_LOG_ENTRIES sampleLogEntry ++ [sampleLogEntry])) :=
  ⟨by simp, log_buffer_bounded _ _ (by simp)⟩

/-- **C8**: the plain-text streaming line
`"2024-01-01T00:00:00Z container started"` is not valid JSON, so the
handler falls back to the plain-text path: the leading ISO-8601 prefix is
extracted as the timestamp, the trimmed remainder becomes the message, and
the level defaults to `"info"` — independently of the receipt time. -/
theorem plain_text_line_normalized (now : String) :
    handleWsMessage now "2024-01-01T00:00:00Z container started" =
      some { timestamp := "2024-01-01T00:00:00Z"
             message := "container started"
             level := "info" } := rfl

/-- `loadPerformanceMetrics` writes no field other than
`performanceMetrics`. -/
theorem loadPerformanceMetrics_only_metrics (oracle : MetricsOracle) (s : MonitorState) :
    (loadPerformanceMetrics oracle s).jobDetails = s.jobDetails ∧
    (loadPerformanceMetrics oracle s).jobStatusText = s.jobStatusText ∧
    (loadPerformanceMetrics oracle s).errorMessage = s.errorMessage ∧
    (loadPerformanceMetrics oracle s).pollActive = s.pollActive ∧
    (loadPerformanceMetrics oracle s).isMonitoring = s.isMonitoring ∧
    (loadPerformanceMetrics oracle s).currentJobId = s.currentJobId ∧
    (loadPerformanceMetrics oracle s).logsConnectionError = s.logsConnectionError ∧
    (loadPerformanceMetrics oracle s).websocketExists = s.websocketExists ∧
    (loadPerformanceMetrics oracle s).isConnectingToLogs = s.isConnectingToLogs ∧
    (loadPerformanceMetrics oracle s).cancelOutstanding = s.cancelOutstanding := by
  unfold loadPerformanceMetrics
  cases s.latestSubmission with
  | none => simp
  | some sub =>
    by_cases hid : sub._id = ""
    · simp [hid]
    · cases hst : sub.stages <;> simp [hid, hst]

/-- `refreshSubmission` writes no field other than `latestSubmission`. -/
theorem refreshSubmission_fields (s : MonitorState) (jobId : String)
    (sr : Except Unit (Option Submission)) :
    (refreshSubmission s jobId sr).jobDetails = s.jobDetails ∧
    (refreshSubmission s jobId sr).jobStatusText = s.jobStatusText ∧
    (refreshSubmission s jobId sr).errorMessage = s.errorMessage ∧
    (refreshSubmission s jobId sr).pollActive = s.pollActive ∧
    (refreshSubmission s jobId sr).isMonitoring = s.isMonitoring ∧
    (refreshSubmission s jobId sr).currentJobId = s.currentJobId ∧
    (refreshSubmission s jobId sr).websocketExists = s.websocketExists ∧
    (refreshSubmission s jobId sr).isConnectingToLogs = s.isConnectingToLogs ∧
    (refreshSubmission s jobId sr).streamingLogs = s.streamingLogs ∧
    (refreshSubmission s jobId sr).cancelOutstanding = s.cancelOutstanding := by
  unfold refreshSubmission
  rcases sr with _ | (_ | sub)
  · simp
  · simp
  · by_cases hjid : sub.job_id = some jobId <;> simp [hjid]

/-- Field values of a successful `checkJobStatus`: details and status text
are replaced, the polling flags are cleared exactly when the fetched
status is terminal, and the watched job id is untouched. -/
theorem checkJobStatus_ok_fields (oracle : MetricsOracle) (s : MonitorState) (jobId : String)
    (d : JobDetails) (sr : Except Unit (Option Submission)) :
    (checkJobStatus oracle s jobId (some d) sr).jobDetails = some d ∧
    (checkJobStatus oracle s jobId (some d) sr).jobStatusText = some (statusText d.status) ∧
    (checkJobStatus oracle s jobId (some d) sr).pollActive =
      (if 3 ≤ d.status then false else s.pollActive) ∧
    (checkJobStatus oracle s jobId (some d) sr).isMonitoring =
      (if 3 ≤ d.status then false else s.isMonitoring) ∧
    (checkJobStatus oracle s jobId (some d) sr).currentJobId = s.currentJobId := by
  unfold checkJobStatus
  have hload := fun s' => loadPerformanceMetrics_only_metrics oracle s'
  have href := refreshSubmission_fields s jobId sr
  by_cases h3 : 3 ≤ d.status <;> by_cases h4 : d.status = 4 <;>
    simp [stopPolling, disconnectFromLogs, h3, h4,
      (hload _).1, (hload _).2.1, (hload _).2.2.1, (hload _).2.2.2.1,
      (hload _).2.2.2.2.1, (hload _).2.2.2.2.2.1,
      href.1, href.2.1, href.2.2.1, href.2.2.2.1, href.2.2.2.2.1, href.2.2.2.2.2.1]

/-- Once the terminal invariant holds *with no fetch still in flight*,
every event is fetch-free and preserves both. -/
theorem step_quiescent_terminal (env : Env) (s : MonitorState) (e : Event)
    (h : inTerminalState s = true) (hq : s.pendingFetches = 0) :
    (step env s e).2 = 0 ∧ inTerminalState (step env s e).1 = true ∧
    (step env s e).1.pendingFetches = 0 := by
  obtain ⟨d, hd, h3, hpa, him⟩ :
      ∃ d, s.jobDetails = some d ∧ 3 ≤ d.status ∧
        s.pollActive = false ∧ s.isMonitoring = false := by
    unfold inTerminalState at h
    cases hd : s.jobDetails with
    | none => rw [hd] at h; simp at h
    | some d =>
      rw [hd] at h
      simp only [Bool.and_eq_true, Bool.not_eq_true', decide_eq_true_eq] at h
      exact ⟨d, rfl, h.1.1, h.1.2, h.2⟩
  have hnot3 : ¬ d.status < 3 := by omega
  cases e with
  | tick =>
    simp [step, hpa, inTerminalState, hd, h3, him, hq]
  | fetchSettles fr sr =>
    simp [step, hq, inTerminalState, hd, h3, hpa, him]
  | reactiveCheck fr sr =>
    simp [step, shouldPoll, hd, hnot3, inTerminalState, h3, hpa, him, hq]
  | cancelClick =>
    simp only [step]
    unfold handleCancel
    rw [hd]
    by_cases hid : d._id = "" <;>
      simp [hid, inTerminalState, hd, h3, hpa, him, hq]
  | cancelSettles ok =>
    simp only [step]
    unfold cancelSettled
    cases ok <;> simp [inTerminalState, hd, h3, hpa, him, hq]
  | toggleLogs =>
    simp only [step]
    unfold toggleLogsVisibility
    simp [isJobActive, hd, hnot3, inTerminalState, h3, hpa, him, hq]
  | wsMessage dataStr =>
    simp only [step]
    by_cases hws : s.websocketExists = true
    · rw [if_pos hws]
      cases handleWsMessage env.now dataStr <;>
        simp [inTerminalState, hd, h3, hpa, him, hq]
    · rw [if_neg hws]
      simp [inTerminalState, hd, h3, hpa, him, hq]

/-- Quiescent-terminal stability over whole traces: no fetch is ever
issued again. -/
theorem runTrace_quiescent_terminal (env : Env) (s : MonitorState) (evs : List Event)
    (h : inTerminalState s = true) (hq : s.pendingFetches = 0) :
    (runTrace env s evs).2 = 0 ∧ inTerminalState (runTrace env s evs).1 = true ∧
    (runTrace env s evs).1.pendingFetches = 0 := by
  induction evs generalizing s with
  | nil => exact ⟨rfl, h, hq⟩
  | cons e es ih =>
    have hs := step_quiescent_terminal env s e h hq
    have hrest := ih (step env s e).1 hs.2.1 hs.2.2
    unfold runTrace
    simp only []
    exact ⟨by rw [hs.1, hrest.1], hrest.2.1, hrest.2.2⟩

/-- Counterexample to **C1** as stated: polling is wall-clock driven, so a
status fetch issued by an earlier tick can still be in flight when a later
fetch is observed terminal.  After two ticks issue fetches, the second
settles as SUCCESS — the terminal invariant holds, the interval is
stopped — but the first, stale fetch then settles with the old RUNNING
record and `checkJobStatus` has no staleness guard: it rewrites
`jobDetails` to the non-terminal record, `shouldPoll` flips true, and the
reactive guard restarts the timer and issues a further status fetch with
no user action (3 fetches in total on this trace), refuting "no further
status fetches are issued / the timer is never restarted". -/
theorem stale_fetch_restarts_polling_after_terminal :
    inTerminalState (runTrace env0 pollingState
      [Event.tick, Event.tick,
       Event.fetchSettles (some terminalDetails) (Except.ok none)]).1 = true ∧
    shouldPoll (runTrace env0 pollingState
      [Event.tick, Event.tick,
       Event.fetchSettles (some terminalDetails) (Except.ok none),
       Event.fetchSettles (some runningDetails) (Except.ok none)]).1 = true ∧
    (runTrace env0 pollingState
      [Event.tick, Event.tick,
       Event.fetchSettles (some terminalDetails) (Except.ok none),
       Event.fetchSettles (some runningDetails) (Except.ok none),
       Event.reactiveCheck (some runningDetails) (Except.ok none)]).1.pollActive = true ∧
    (runTrace env0 pollingState
      [Event.tick, Event.tick,
       Event.fetchSettles (some terminalDetails) (Except.ok none),
       Event.fetchSettles (some runningDetails) (Except.ok none),
       Event.reactiveCheck (some runningDetails) (Except.ok none)]).2 = 3 := by
  decide

/-- **C1 (amended)**: a completed status fetch stops polling exactly when
the fetched status is terminal (`≥ 3`), and observing a terminal status
establishes the terminal invariant (terminal details cached, interval
stopped, monitoring off).  But a fetch already in flight at that moment
settles later with no staleness guard and can overwrite the cache with a
stale non-terminal record, whereupon the reactive guard restarts the timer
(see `stale_fetch_restarts_polling_after_terminal`).  Termination is
permanent only once a terminal status has been observed with *no fetch
still in flight*: from such quiescent terminal states, every subsequent
event issues zero further status fetches and preserves the invariant —
the timer is never restarted for that job. -/
theorem polling_terminal_permanent_when_quiescent :
    (∀ oracle s jobId d sr, s.pollActive = true →
      ((checkJobStatus oracle s jobId (some d) sr).pollActive = false ↔ 3 ≤ d.status)) ∧
    (∀ oracle s jobId d sr, 3 ≤ d.status →
      inTerminalState (checkJobStatus oracle s jobId (some d) sr) = true) ∧
    (∀ env s evs, inTerminalState s = true → s.pendingFetches = 0 →
      (runTrace env s evs).2 = 0 ∧ inTerminalState (runTrace env s evs).1 = true ∧
      (runTrace env s evs).1.pendingFetches = 0) := by
  refine ⟨?_, ?_, fun env s evs h hq => runTrace_quiescent_terminal env s evs h hq⟩
  · intro oracle s jobId d sr hpa
    have hf := (checkJobStatus_ok_fields oracle s jobId d sr).2.2.1
    by_cases h3 : 3 ≤ d.status
    · rw [hf, if_pos h3]
      simp [h3]
    · rw [hf, if_neg h3, hpa]
      simp [h3]
  · intro oracle s jobId d sr h3
    have hf := checkJobStatus_ok_fields oracle s jobId d sr
    unfold inTerminalState
    rw [hf.1, hf.2.2.1, hf.2.2.2.1, if_pos h3, if_pos h3]
    simp [h3]

/-- Witness for **C1 (amended)**: a RUNNING job observed as SUCCESS stops
polling, and from the quiescent terminal state a tick, a (spurious) fetch
settlement, a reactive check, a cancel click and a logs toggle issue no
further fetch. -/
theorem polling_terminal_permanent_witness :
    pollingState.pollActive = true ∧
    ((checkJobStatus noMetrics pollingState "job-1" (some terminalDetails)
        (Except.ok none)).pollActive = false ↔ 3 ≤ terminalDetails.status) ∧
    (3 ≤ terminalDetails.status) ∧
    inTerminalState (checkJobStatus noMetrics pollingState "job-1" (some terminalDetails)
      (Except.ok none)) = true ∧
    inTerminalState terminalState = true ∧
    terminalState.pendingFetches = 0 ∧
    (runTrace env0 terminalState
      [Event.tick, Event.fetchSettles (some runningDetails) (Except.ok none),
       Event.reactiveCheck (some runningDetails) (Except.ok none),
       Event.cancelClick, Event.toggleLogs]).2 = 0 ∧
    inTerminalState (runTrace env0 terminalState
      [Event.tick, Event.fetchSettles (some runningDetails) (Except.ok none),
       Event.reactiveCheck (some runningDetails) (Except.ok none),
       Event.cancelClick, Event.toggleLogs]).1 = true := by
  have h := polling_terminal_permanent_when_quiescent
  have htrace := h.2.2 env0 terminalState
    [Event.tick, Event.fetchSettles (some runningDetails) (Except.ok none),
     Event.reactiveCheck (some runningDetails) (Except.ok none),
     Event.cancelClick, Event.toggleLogs] (by decide) (by decide)
  exact ⟨rfl, h.1 noMetrics pollingState "job-1" terminalDetails (Except.ok none) rfl,
    by decide,
    h.2.1 noMetrics pollingState "job-1" terminalDetails (Except.ok none) (by decide),
    by decide, by decide, htrace.1, htrace.2.1⟩

/-- Counterexample to **C2** as stated: with a fully populated first stage
and an incomplete second stage, `runJob` is *not* rejected — the
incomplete stage is silently filtered out and `submitJob` is invoked with
the surviving stage, so a network call is made on behalf of an
incompletely populated stage list. -/
theorem incomplete_stage_submission_not_rejected :
    entryIsValid incompleteStage = false ∧
    runJob (some "file-1") [completeStage, incompleteStage] =
      RunJobResult.submitted
        [{ image_name := "stata", image_tag := "18", main_file := "main.do" }] := by
  decide

/-- **C2 (amended)**: a submission is rejected before any network call
when the uploaded file id is absent, when the stage list is empty, or when
the *first* stage is missing a non-blank entry-file name or its image or
tag; incomplete stages other than the first are filtered out and the
submission proceeds with the surviving stages — `submitJob` itself is only
ever invoked with a non-empty list of fully populated stages. -/
theorem submission_validated_on_first_stage_only :
    (∀ entries, runJob none entries = RunJobResult.rejected "Please upload a file first.") ∧
    (∀ fid, fid ≠ "" → runJob (some fid) [] = RunJobResult.rejected "No configuration available.") ∧
    (∀ fid e es, fid ≠ "" → jsTrim e.executionFileName.toList = [] →
      runJob (some fid) (e :: es) =
        RunJobResult.rejected "Please specify an execution file name.") ∧
    (∀ fid e es, fid ≠ "" → jsTrim e.executionFileName.toList ≠ [] →
      (e.selectedImage.getD "" = "" ∨ e.selectedTag.getD "" = "") →
      runJob (some fid) (e :: es) =
        RunJobResult.rejected "Please select both an image and a tag.") ∧
    (∀ fid entries stages, runJob fid entries = RunJobResult.submitted stages →
      stages = transformConfig (entries.filter entryIsValid) ∧
      stages ≠ [] ∧
      ∀ st ∈ stages, st.image_name ≠ "" ∧ st.image_tag ≠ "" ∧ st.main_file ≠ "") := by
  refine ⟨?_, ?_, ?_, ?_, ?_⟩
  · intro entries
    simp [runJob]
  · intro fid hfid
    simp [runJob, hfid]
  · intro fid e es hfid htrim
    simp only [String.toList] at htrim
    simp [runJob, hfid, htrim]
  · intro fid e es hfid htrim him
    simp only [String.toList] at htrim
    rcases him with him | him <;>
      simp [runJob, hfid, htrim, him]
  · intro fid entries stages hsub
    unfold runJob at hsub
    split at hsub
    · exact absurd hsub (by simp)
    · split at hsub
      · exact absurd hsub (by simp)
      · split at hsub
        · exact absurd hsub (by simp)
        · split at hsub
          · exact absurd hsub (by simp)
          · split at hsub
            · exact absurd hsub (by simp)
            · rename_i hempty
              cases hsub
              refine ⟨rfl, ?_, ?_⟩
              · intro hnil
                unfold transformConfig at hnil
                rw [List.map_eq_nil_iff] at hnil
                rw [hnil] at hempty
                simp at hempty
              · intro st hst
                unfold transformConfig at hst
                rw [List.mem_map] at hst
                obtain ⟨entry, hentry, rfl⟩ := hst
                have hv := List.of_mem_filter hentry
                unfold entryIsValid at hv
                simp only [Bool.and_eq_true, decide_eq_true_eq] at hv
                exact ⟨hv.1.1, hv.1.2, hv.2⟩

/-- Witness for **C2 (amended)**: an incomplete first stage is rejected
with the entry-file message, and a submitted job's stage list is exactly
the transform of the surviving valid entries. -/
theorem submission_validated_witness :
    (("file-1" : String) ≠ "" ∧ jsTrim incompleteStage.executionFileName.toList = [] ∧
      runJob (some "file-1") (incompleteStage :: [completeStage]) =
        RunJobResult.rejected "Please specify an execution file name.") ∧
    runJob (some "file-1") [completeStage, incompleteStage] =
      RunJobResult.submitted [sampleStage] ∧
    [sampleStage] = transformConfig ([completeStage, incompleteStage].filter entryIsValid) := by
  refine ⟨⟨by decide, by decide, ?_⟩, by decide, ?_⟩
  · exact submission_validated_on_first_stage_only.2.2.1 "file-1" incompleteStage
      [completeStage] (by decide) (by decide)
  · exact (submission_validated_on_first_stage_only.2.2.2.2 (some "file-1")
      [completeStage, incompleteStage] [sampleStage] (by decide)).1

/-- **C3**: when a submission with declared per-stage metadata is cached,
the collected metrics are exactly the successful per-stage fetches, in
stage order — a fetch failure (`none`) for one stage removes only that
stage's card, every other successful stage is still collected — and no
error is surfaced (`errorMessage` and `logsConnectionError` are left
untouched).  The fetches are issued together and joined (`Promise.all`),
modelled here by the independent per-stage oracle reads. -/
theorem metrics_collected_per_stage_independently (oracle : MetricsOracle) (s : MonitorState)
    (sub : Submission) (stages : List ApiJobStageConfig)
    (hsub : s.latestSubmission = some sub) (hid : sub._id ≠ "")
    (hst : sub.stages = some stages) :
    (loadPerformanceMetrics oracle s).performanceMetrics =
      stages.enum.filterMap
        (fun p => (oracle sub._id (p.1 + 1)).map (mkStageMetrics p)) ∧
    (loadPerformanceMetrics oracle s).errorMessage = s.errorMessage ∧
    (loadPerformanceMetrics oracle s).logsConnectionError = s.logsConnectionError ∧
    (∀ i st d, stages[i]? = some st → oracle sub._id (i + 1) = some d →
      mkStageMetrics (i, st) d ∈ (loadPerformanceMetrics oracle s).performanceMetrics) := by
  have heq : (loadPerformanceMetrics oracle s).performanceMetrics =
      stages.enum.filterMap
        (fun p => (oracle sub._id (p.1 + 1)).map (mkStageMetrics p)) := by
    unfold loadPerformanceMetrics
    rw [hsub]
    simp only [hid, if_false, hst, mkStageMetrics]
    rw [List.filterMap_map]
    rfl
  refine ⟨heq, ?_, ?_, ?_⟩
  · unfold loadPerformanceMetrics
    rw [hsub]
    simp [hid, hst]
  · unfold loadPerformanceMetrics
    rw [hsub]
    simp [hid, hst]
  · intro i st d hist hd
    rw [heq, List.mem_filterMap]
    exact ⟨(i, st), List.mk_mem_enum_iff_getElem?.mpr hist, by rw [hd]; rfl⟩

/-- Witness for **C3**: with the two-stage sample submission and an oracle
failing exactly on stage 1, stage 2's metrics are still collected. -/
theorem metrics_collected_witness :
    submittedState.latestSubmission = some sampleSubmission ∧
    sampleSubmission._id ≠ "" ∧
    sampleSubmission.stages = some [sampleStage, sampleStageR] ∧
    failFirstOracle sampleSubmission._id 1 = none ∧
    mkStageMetrics (1, sampleStageR) { payload := "ok" } ∈
      (loadPerformanceMetrics failFirstOracle submittedState).performanceMetrics :=
  ⟨rfl, by decide, rfl, rfl,
    (metrics_collected_per_stage_independently failFirstOracle submittedState
      sampleSubmission [sampleStage, sampleStageR] rfl (by decide) rfl).2.2.2
      1 sampleStageR { payload := "ok" } (by decide) (by decide)⟩

/-- Counterexample to **C4** as stated: after a failed status fetch on a
job whose cached status is still RUNNING, the error message is surfaced
and the interval is stopped — but `shouldPoll` becomes true again (details
were left non-terminal), so the reactive guard immediately restarts
polling and issues a further status fetch with no user action. -/
theorem fetch_failure_retries_automatically :
    (checkJobStatus noMetrics pollingState "job-1" none (Except.ok none)).errorMessage =
      some "Could not fetch job status." ∧
    (checkJobStatus noMetrics pollingState "job-1" none (Except.ok none)).pollActive = false ∧
    shouldPoll (checkJobStatus noMetrics pollingState "job-1" none (Except.ok none)) = true ∧
    (step env0 (checkJobStatus noMetrics pollingState "job-1" none (Except.ok none))
      (Event.reactiveCheck (some runningDetails) (Except.ok none))).2 = 1 := by
  decide

/-- **C4 (amended)**: a failed status fetch stops the interval, leaves
monitoring mode and surfaces `"Could not fetch job status."`; the cached
details are left unchanged, so the reactive guard re-enables polling
exactly when a job id is still set and the cached status is absent or
non-terminal — automatic retries do occur in that case; monitoring ends
for good only when the cached status is already terminal. -/
theorem fetch_failure_stops_polling_but_restarts (oracle : MetricsOracle) (s : MonitorState)
    (jobId : String) (sr : Except Unit (Option Submission)) :
    (checkJobStatus oracle s jobId none sr).errorMessage =
      some "Could not fetch job status." ∧
    (checkJobStatus oracle s jobId none sr).pollActive = false ∧
    (checkJobStatus oracle s jobId none sr).isMonitoring = false ∧
    (checkJobStatus oracle s jobId none sr).jobDetails = s.jobDetails ∧
    shouldPoll (checkJobStatus oracle s jobId none sr) =
      (s.currentJobId.isSome &&
        match s.jobDetails with
        | none => true
        | some d => decide (d.status < 3)) := by
  unfold checkJobStatus stopPolling disconnectFromLogs shouldPoll
  simp

/-- Counterexample to **C7** as stated: a poll tick that completes while
the cancel request is still outstanding rewrites the status text from
`"Canceling..."` back to the status name, re-enabling the cancel control
although the cancel request has not settled. -/
theorem cancel_button_reenabled_while_cancel_outstanding :
    (handleCancel pollingState).cancelOutstanding = true ∧
    cancelButtonDisabled (handleCancel pollingState) = true ∧
    (checkJobStatus noMetrics (handleCancel pollingState) "job-1" (some runningDetails)
      (Except.ok none)).cancelOutstanding = true ∧
    cancelButtonDisabled (checkJobStatus noMetrics (handleCancel pollingState) "job-1"
      (some runningDetails) (Except.ok none)) = false := by
  decide

/-- **C7 (amended)**: issuing a cancel on a cached job disables the cancel
control immediately (status text `"Canceling..."`) and never locally
modifies the cached job details or the polling flag — the state machine
advances only when a poll observes the backend status; but the disabled
state lasts only until the next completed status fetch rewrites the text,
which can re-enable the control while the cancel request is still
outstanding. -/
theorem cancel_disables_and_never_forces_status (s : MonitorState) (d : JobDetails)
    (hd : s.jobDetails = some d) (hid : d._id ≠ "") :
    (handleCancel s).jobDetails = s.jobDetails ∧
    (handleCancel s).pollActive = s.pollActive ∧
    (handleCancel s).cancelOutstanding = true ∧
    cancelButtonDisabled (handleCancel s) = true := by
  unfold handleCancel cancelButtonDisabled
  rw [hd]
  simp [hid, hd]

/-- Witness for **C7 (amended)** on the RUNNING fixture. -/
theorem cancel_disables_witness :
    pollingState.jobDetails = some runningDetails ∧
    runningDetails._id ≠ "" ∧
    ((handleCancel pollingState).jobDetails = pollingState.jobDetails ∧
      (handleCancel pollingState).pollActive = pollingState.pollActive ∧
      (handleCancel pollingState).cancelOutstanding = true ∧
      cancelButtonDisabled (handleCancel pollingState) = true) :=
  ⟨rfl, by decide,
    cancel_disables_and_never_forces_status pollingState runningDetails rfl (by decide)⟩

/-- Counterexample to **C9** as stated: `connectToLogs` invoked while a
channel is open is not a no-op — it closes the existing socket, opens a
fresh one and mutates the state. -/
theorem connect_is_not_noop_when_connected :
    connectedState.websocketExists = true ∧
    (connectToLogs true connectedState).closedExisting = true ∧
    (connectToLogs true connectedState).openedNew = true ∧
    (connectToLogs true connectedState).state ≠ connectedState := by
  decide

/-- **C9 (amended)**: the already-connecting/already-connected guard lives
at the call sites, not in `connectToLogs` itself: when a socket exists or
an attempt is in progress, `toggleLogsVisibility` only flips visibility,
and `startPolling` enters monitoring mode without touching the channel;
`connectToLogs` called directly (the retry button) closes any open socket
and opens a fresh one. -/
theorem connect_guard_lives_at_call_sites (tokenOk : Bool) (env : Env) (s : MonitorState)
    (jobId : String) (fr : Option JobDetails) (sr : Except Unit (Option Submission))
    (h : s.websocketExists = true ∨ s.isConnectingToLogs = true) :
    toggleLogsVisibility tokenOk s = { s with isLogsVisible := !s.isLogsVisible } ∧
    startPolling env s jobId fr sr =
      checkJobStatus env.oracle { s with isMonitoring := true, pollActive := true }
        jobId fr sr := by
  unfold toggleLogsVisibility startPolling
  rcases h with h | h <;> simp [h]

/-- Witness for **C9 (amended)** on the connected fixture. -/
theorem connect_guard_witness :
    (connectedState.websocketExists = true ∨ connectedState.isConnectingToLogs = true) ∧
    (toggleLogsVisibility true connectedState =
        { connectedState with isLogsVisible := !connectedState.isLogsVisible } ∧
      startPolling env0 connectedState "job-1" (some runningDetails) (Except.ok none) =
        checkJobStatus env0.oracle
          { connectedState with isMonitoring := true, pollActive := true }
          "job-1" (some runningDetails) (Except.ok none)) :=
  ⟨Or.inl rfl,
    connect_guard_lives_at_call_sites true env0 connectedState "job-1"
      (some runningDetails) (Except.ok none) (Or.inl rfl)⟩

end Sivacor
